import Mathlib

/-!
Shallow embedding of the Transmission-control Telegram bot
(`bot.py`, `transmission_client.py`).

Numeric daemon quantities (byte counts, rates, completion fractions) are
modelled as rationals; the Python code holds them as ints/floats and the
operations performed on them (division by 1024, comparison with constants,
fixed-point rendering) are exact on rationals for the integer inputs the
daemon supplies.  Strings are Lean `String`s; Python `len` counts code
points, as does `String.length`.

Side effects of a handler (outgoing chat replies and RPC calls issued to
the daemon) are modelled as an explicit trace, a `List Effect`.  The
daemon's response to a `get_torrents` RPC is modelled as a
`DaemonResult`: either a snapshot of items, or a failure carrying the
exception text.
-/

/-- Round a rational to the nearest integer, ties to even: the rounding
used by Python fixed-point formatting of exactly representable values. -/
def roundHalfEven (q : ℚ) : ℤ :=
  let f : ℤ := q.floor
  let r : ℚ := q - (f : ℚ)
  if r < 1/2 then f
  else if 1/2 < r then f + 1
  else if f % 2 = 0 then f else f + 1

/-- Render a non-negative rational with exactly two decimal places,
as Python `f"{x:.2f}"` does on exactly representable values. -/
def formatFixed2 (q : ℚ) : String :=
  let n : ℤ := roundHalfEven (q * 100)
  let ip : ℤ := n / 100
  let fp : ℤ := n % 100
  toString ip ++ "." ++ (if fp < 10 then "0" else "") ++ toString fp

/-- Render a non-negative rational with exactly one decimal place,
as Python `f"{x:.1f}"` does on exactly representable values. -/
def formatFixed1 (q : ℚ) : String :=
  let n : ℤ := roundHalfEven (q * 10)
  let ip : ℤ := n / 10
  let fp : ℤ := n % 10
  toString ip ++ "." ++ toString fp

/-- The unit ladder walked by `format_size` (`bot.py` line 45). -/
def sizeUnits : List String := ["B", "KB", "MB", "GB", "TB"]

/-- The loop body of `format_size`: try each unit in turn, dividing by
1024 whenever the current value is not below 1024. -/
def format_size_aux : List String → ℚ → String
  | [], size_bytes => formatFixed2 size_bytes ++ " PB"
  | unit :: rest, size_bytes =>
      if size_bytes < 1024 then formatFixed2 size_bytes ++ " " ++ unit
      else format_size_aux rest (size_bytes / 1024)

/-- `format_size` from `bot.py` lines 43-49. -/
def format_size (size_bytes : ℚ) : String :=
  format_size_aux sizeUnits size_bytes

/-- `format_speed` from `bot.py` lines 52-54. -/
def format_speed (speed_bytes : ℚ) : String :=
  format_size speed_bytes ++ "/s"

/-- One torrent record as the transmission-rpc library reports it:
the fields `bot.py` and `transmission_client.py` read. -/
structure Torrent where
  id : ℕ
  name : String
  status : String
  percent_done : ℚ
  downloaded_ever : ℚ
  total_size : ℚ
  rate_download : ℚ
  rate_upload : ℚ
  peers_connected : ℕ
  peers_getting_from_us : ℕ
  peers_sending_to_us : ℕ
deriving DecidableEq

/-- The status-label dictionary lookup with fallback `f'❓ {status}'`
from `bot.py` lines 84-92. -/
def status_text (status : String) : String :=
  if status = "stopped" then "⏸ Остановлен"
  else if status = "check_wait" then "⏳ Ожидает проверки"
  else if status = "check" then "🔍 Проверяется"
  else if status = "download_wait" then "⏳ Ожидает загрузки"
  else if status = "downloading" then "⬇️ Загружается"
  else if status = "seed_wait" then "⏳ Ожидает раздачи"
  else if status = "seeding" then "⬆️ Раздается"
  else "❓ " ++ status

/-- The seven status strings the label dictionary recognizes. -/
def knownStatuses : List String :=
  ["stopped", "check_wait", "check", "download_wait", "downloading", "seed_wait", "seeding"]

/-- Everything `format_torrent_info` appends after the status line,
for a given torrent (`bot.py` lines 96-100). -/
def torrent_info_tail (torrent : Torrent) : String :=
  "Прогресс: " ++ formatFixed1 (torrent.percent_done * 100) ++ "%\n"
  ++ "Загружено: " ++ format_size torrent.downloaded_ever ++ " / "
  ++ format_size torrent.total_size ++ "\n"
  ++ "Скорость загрузки: " ++ format_speed torrent.rate_download ++ "\n"
  ++ "Скорость отдачи: " ++ format_speed torrent.rate_upload ++ "\n"
  ++ "Пиры: " ++ toString torrent.peers_connected
  ++ " (отдаем: " ++ toString torrent.peers_getting_from_us
  ++ ", получаем: " ++ toString torrent.peers_sending_to_us ++ ")\n"

/-- `format_torrent_info` from `bot.py` lines 71-102. -/
def format_torrent_info (torrent : Torrent) : String :=
  "📦 **" ++ torrent.name ++ "**\n"
  ++ "Статус: " ++ status_text torrent.status ++ "\n"
  ++ torrent_info_tail torrent

/-- An RPC call issued to the transmission daemon. -/
inductive RpcCall where
  | getTorrents
  | stopTorrent (ids : List ℕ)
  | startTorrent (ids : List ℕ)
  | addTorrent
deriving DecidableEq

/-- An observable side effect of a handler: an RPC call to the daemon or
a chat reply sent back to the requester. -/
inductive Effect where
  | rpc (call : RpcCall)
  | reply (text : String)
deriving DecidableEq

/-- The daemon's response to a `get_torrents` RPC: a snapshot of items,
or a raised error carrying the exception text. -/
def DaemonResult : Type := Except String (List Torrent)

namespace TransmissionClient

/-- `TransmissionClient.get_all_torrents` (`transmission_client.py`
lines 85-102): one `get_torrents` RPC, returning the snapshot as is. -/
def get_all_torrents (d : DaemonResult) :
    Except String (List Torrent) × List RpcCall :=
  (d, [RpcCall.getTorrents])

/-- The active-status list from `transmission_client.py` line 116. -/
def active_statuses : List String :=
  ["downloading", "seeding", "check", "check_wait", "download_wait", "seed_wait",
   "download_pending"]

/-- `TransmissionClient.get_active_torrents` (`transmission_client.py`
lines 104-127): one `get_torrents` RPC, then a status filter. -/
def get_active_torrents (d : DaemonResult) :
    Except String (List Torrent) × List RpcCall :=
  match d with
  | .error e => (.error e, [RpcCall.getTorrents])
  | .ok all_torrents =>
      (.ok (all_torrents.filter (fun t => active_statuses.contains t.status)),
       [RpcCall.getTorrents])

/-- `TransmissionClient.pause_all` (`transmission_client.py` lines
129-155): fetch all items, collect ids with status ≠ stopped, issue one
bulk stop iff the list is non-empty, return its length. -/
def pause_all (d : DaemonResult) : Except String ℕ × List RpcCall :=
  match d with
  | .error e => (.error e, [RpcCall.getTorrents])
  | .ok torrents =>
      let torrent_ids := (torrents.filter (fun t => t.status != "stopped")).map Torrent.id
      (.ok torrent_ids.length,
       [RpcCall.getTorrents]
         ++ if torrent_ids.isEmpty then [] else [RpcCall.stopTorrent torrent_ids])

/-- `TransmissionClient.resume_all` (`transmission_client.py` lines
157-186): fetch all items, collect ids of stopped items below 100%
completion, issue one bulk start iff the list is non-empty, return its
length. -/
def resume_all (d : DaemonResult) : Except String ℕ × List RpcCall :=
  match d with
  | .error e => (.error e, [RpcCall.getTorrents])
  | .ok torrents =>
      let torrent_ids :=
        (torrents.filter
          (fun t => t.status == "stopped" && decide (t.percent_done < 1))).map Torrent.id
      (.ok torrent_ids.length,
       [RpcCall.getTorrents]
         ++ if torrent_ids.isEmpty then [] else [RpcCall.startTorrent torrent_ids])

end TransmissionClient

namespace Bot

/-- The module-level constant `ALLOWED_USER_ID = 800891816` from
`bot.py` line 31. -/
def ALLOWED_USER_ID : ℕ := 800891816

/-- The refusal reply sent by `check_user_access` (`bot.py` line 66). -/
def accessDeniedText : String := "❌ У вас нет доступа к этому боту."

/-- `check_user_access` from `bot.py` lines 57-68: the effects it sends
and the boolean it returns. -/
def check_user_access (user_id : ℕ) : List Effect × Bool :=
  if user_id ≠ ALLOWED_USER_ID then ([Effect.reply accessDeniedText], false)
  else ([], true)

/-- Concatenation of a list of strings, in order. -/
def joinParts : List String → String
  | [] => ""
  | s :: rest => s ++ joinParts rest

/-- The pagination loop shared by `show_all_torrents` (`bot.py` lines
166-178) and `show_active_torrents` (lines 209-221): `current_part` is
the running buffer, `parts` the flushed messages so far; a block that
would push the buffer past 4000 characters flushes the buffer first;
the final non-empty buffer is flushed at the end. -/
def paginateLoop : List String → String → List String → List String
  | [], current_part, parts =>
      if current_part = "" then parts else parts ++ [current_part]
  | torrent_text :: rest, current_part, parts =>
      if 4000 < current_part.length + torrent_text.length then
        paginateLoop rest torrent_text (parts ++ [current_part])
      else
        paginateLoop rest (current_part ++ torrent_text) parts

/-- Run the pagination loop from a header line: the buffer starts as the
header, as in `bot.py` lines 167 and 210. -/
def paginate (header : String) (blocks : List String) : List String :=
  paginateLoop blocks header []

/-- The per-item blocks `f"{i}. {format_torrent_info(torrent)}\n"` with
1-based enumeration (`bot.py` lines 160-161 and 169-170). -/
def torrentBlocks (torrents : List Torrent) : List String :=
  (List.enumFrom 1 torrents).map
    (fun p => toString p.1 ++ ". " ++ format_torrent_info p.2 ++ "\n")

/-- Header of the single-message reply of `/all` (`bot.py` line 158). -/
def allCountHeader (torrents : List Torrent) : String :=
  "📋 **Все загрузки (" ++ toString torrents.length ++ "):**\n\n"

/-- Header used by `/all` pagination (`bot.py` line 167). -/
def allPagHeader : String := "📋 **Все загрузки:**\n\n"

/-- The full single message `/all` builds first (`bot.py` lines 158-161). -/
def allFullMessage (torrents : List Torrent) : String :=
  allCountHeader torrents ++ joinParts (torrentBlocks torrents)

/-- The messages `/all` sends for a non-empty torrent list (`bot.py`
lines 158-183): the single message if it is at most 4096 characters,
otherwise the paginated parts. -/
def show_all_body (torrents : List Torrent) : List String :=
  let message := allFullMessage torrents
  if 4096 < message.length then paginate allPagHeader (torrentBlocks torrents)
  else [message]

/-- Header of the single-message reply of `/active` (`bot.py` line 202). -/
def activeCountHeader (torrents : List Torrent) : String :=
  "⚡ **Активные загрузки (" ++ toString torrents.length ++ "):**\n\n"

/-- Header used by `/active` pagination (`bot.py` line 210). -/
def activePagHeader : String := "⚡ **Активные загрузки:**\n\n"

/-- The full single message `/active` builds first (`bot.py` lines 202-205). -/
def activeFullMessage (torrents : List Torrent) : String :=
  activeCountHeader torrents ++ joinParts (torrentBlocks torrents)

/-- The messages `/active` sends for a non-empty torrent list (`bot.py`
lines 202-226). -/
def show_active_body (torrents : List Torrent) : List String :=
  let message := activeFullMessage torrents
  if 4096 < message.length then paginate activePagHeader (torrentBlocks torrents)
  else [message]

/-- The static welcome text of `/start` (`bot.py` lines 110-122). -/
def welcome_text : String :=
  "\n🤖 **Бот для управления Transmission**\n\nДоступные команды:\n/start - Показать это сообщение\n/all - Показать все загрузки\n/active - Показать только активные загрузки\n/pause - Поставить все загрузки на паузу\n/resume - Продолжить все загрузки\n/help - Показать справку\n\n📎 **Отправьте .torrent файл** для автоматической загрузки\n    "

/-- The static help text of `/help` (`bot.py` lines 131-142). -/
def help_text : String :=
  "\n📖 **Справка по использованию бота**\n\n**Доступные команды:**\n\n🔹 /start - Показать приветственное сообщение со списком команд\n🔹 /help - Показать эту справку\n🔹 /all - Показать все торренты (включая завершенные и остановленные)\n🔹 /active - Показать только активные загрузки (загружающиеся, раздающиеся, проверяющиеся)\n🔹 /pause - Поставить все загрузки на паузу\n🔹 /resume - Продолжить все загрузки\n    "

/-- The `/start` handler (`bot.py` lines 105-123). -/
def start (user_id : ℕ) : List Effect :=
  let a := check_user_access user_id
  a.1 ++ if a.2 then [Effect.reply welcome_text] else []

/-- The `/help` handler `help_command` (`bot.py` lines 126-143). -/
def help_command (user_id : ℕ) : List Effect :=
  let a := check_user_access user_id
  a.1 ++ if a.2 then [Effect.reply help_text] else []

/-- The `/all` handler `show_all_torrents` (`bot.py` lines 146-187):
guard, fetch, empty-list reply, single or paginated reply, error reply. -/
def show_all_torrents (user_id : ℕ) (d : DaemonResult) : List Effect :=
  let a := check_user_access user_id
  a.1 ++ if a.2 then
    match TransmissionClient.get_all_torrents d with
    | (.error e, calls) => calls.map Effect.rpc ++ [Effect.reply ("❌ Ошибка: " ++ e)]
    | (.ok torrents, calls) =>
        calls.map Effect.rpc ++
          if torrents.isEmpty then [Effect.reply "📭 Нет загрузок"]
          else (show_all_body torrents).map Effect.reply
  else []

/-- The `/active` handler `show_active_torrents` (`bot.py` lines 190-230). -/
def show_active_torrents (user_id : ℕ) (d : DaemonResult) : List Effect :=
  let a := check_user_access user_id
  a.1 ++ if a.2 then
    match TransmissionClient.get_active_torrents d with
    | (.error e, calls) => calls.map Effect.rpc ++ [Effect.reply ("❌ Ошибка: " ++ e)]
    | (.ok torrents, calls) =>
        calls.map Effect.rpc ++
          if torrents.isEmpty then [Effect.reply "📭 Нет активных загрузок"]
          else (show_active_body torrents).map Effect.reply
  else []

/-- The `/pause` handler `pause_all` (`bot.py` lines 233-243). -/
def pause_all (user_id : ℕ) (d : DaemonResult) : List Effect :=
  let a := check_user_access user_id
  a.1 ++ if a.2 then
    match TransmissionClient.pause_all d with
    | (.error e, calls) => calls.map Effect.rpc ++ [Effect.reply ("❌ Ошибка: " ++ e)]
    | (.ok count, calls) =>
        calls.map Effect.rpc ++ [Effect.reply ("⏸ Остановлено загрузок: " ++ toString count)]
  else []

/-- The `/resume` handler `resume_all` (`bot.py` lines 246-256). -/
def resume_all (user_id : ℕ) (d : DaemonResult) : List Effect :=
  let a := check_user_access user_id
  a.1 ++ if a.2 then
    match TransmissionClient.resume_all d with
    | (.error e, calls) => calls.map Effect.rpc ++ [Effect.reply ("❌ Ошибка: " ++ e)]
    | (.ok count, calls) =>
        calls.map Effect.rpc ++ [Effect.reply ("▶️ Продолжено загрузок: " ++ toString count)]
  else []

/-- The success reply of the torrent-file handler (`bot.py` lines 273-277). -/
def torrentAddedText (name : String) : String :=
  "✅ Торрент добавлен!\n\n📦 " ++ name ++ "\nСтатус: Загрузка начата"

/-- The error reply of the torrent-file handler (`bot.py` line 281). -/
def torrentErrText (e : String) : String :=
  "❌ Ошибка при добавлении торрента: " ++ e

/-- Modelled from the spec: the daemon-side outcome of the external
`transmission-rpc` add operation, whose code is not in this repository.
Per the spec, for well-formed metadata bytes it returns the resulting
item, and for malformed metadata or daemon-side rejection it raises a
daemon error carrying a message; the two outcomes are the two cases of
this type. -/
def AddOutcome : Type := Except String Torrent

/-- The torrent-file handler `handle_torrent_file` (`bot.py` lines
259-281).  `downloadRes` is the outcome of fetching the attachment bytes
(`.error` when the download raises, before any daemon call); `addRes` is
the `AddOutcome` of `transmission.add_torrent` on those bytes. -/
def handle_torrent_file (user_id : ℕ) (downloadRes : Except String Unit)
    (addRes : AddOutcome) : List Effect :=
  let a := check_user_access user_id
  a.1 ++ if a.2 then
    match downloadRes with
    | .error e => [Effect.reply (torrentErrText e)]
    | .ok _ =>
        match addRes with
        | .error e => [Effect.rpc RpcCall.addTorrent, Effect.reply (torrentErrText e)]
        | .ok torrent =>
            [Effect.rpc RpcCall.addTorrent, Effect.reply (torrentAddedText torrent.name)]
  else []

/-- The environment configuration `main` and module initialization read
(`bot.py` lines 34-40 and 305): each value optional, with defaults. -/
structure Config where
  telegram_bot_token : Option String
  transmission_host : Option String
  transmission_port : Option String
  transmission_username : Option String
  transmission_password : Option String
  transmission_path : Option String
deriving DecidableEq

/-- The operator identity the guard compares against, as a function of
the configuration: `bot.py` hardcodes `ALLOWED_USER_ID` at line 31 and
reads no configuration for it. -/
def operator_identity (_c : Config) : ℕ := ALLOWED_USER_ID

end Bot

/-- A string of `k` copies of the letter a, used to build concrete
torrent names of a chosen length. -/
def charsA (k : ℕ) : String := String.mk (List.replicate k 'a')

/-- A torrent with the given id, name, status and completion fraction,
and all remaining numeric fields zero. -/
def mkTorrent (i : ℕ) (nm st : String) (pd : ℚ) : Torrent :=
  { id := i, name := nm, status := st, percent_done := pd,
    downloaded_ever := 0, total_size := 0, rate_download := 0, rate_upload := 0,
    peers_connected := 0, peers_getting_from_us := 0, peers_sending_to_us := 0 }

/-- A snapshot of five items of which exactly three (ids 1, 2, 4) are
not stopped: the end-to-end `/pause` scenario. -/
def scenarioFive : List Torrent :=
  [mkTorrent 1 "t1" "downloading" (1/2), mkTorrent 2 "t2" "seeding" 1,
   mkTorrent 3 "t3" "stopped" (1/2), mkTorrent 4 "t4" "downloading" (1/4),
   mkTorrent 5 "t5" "stopped" 1]

/-- A torrent whose formatted block makes the full `/all` message land
between 4001 and 4096 characters: its block is 161 + 3870 characters,
the count header 25 characters, so the full message is 4056 characters. -/
def cexTorrent : Torrent := mkTorrent 1 (charsA 3870) "stopped" 0

/-- A torrent whose formatted block pushes the full `/all` message past
4096 characters (161 + 4000 + 25 = 4186). -/
def wtTorrent : Torrent := mkTorrent 1 (charsA 4000) "stopped" 0

/-- The formatted item block the `/all` command builds for `wtTorrent`
(4161 characters: its name alone is 4000). -/
def wtBlock : String := toString (1 : ℕ) ++ ". " ++ format_torrent_info wtTorrent ++ "\n"

/-- Three 2000-character blocks: together with the pagination header
their total passes the 4000-character threshold, so pagination must
flush. -/
def wBlocks : List String := [charsA 2000, charsA 2000, charsA 2000]

/-- The tail `format_torrent_info` produces for an item whose numeric
fields are all zero. -/
def zeroTail : String :=
  "Прогресс: 0.0%\nЗагружено: 0.00 B / 0.00 B\nСкорость загрузки: 0.00 B/s\nСкорость отдачи: 0.00 B/s\nПиры: 0 (отдаем: 0, получаем: 0)\n"

/-- The spec's wording of `formatSize`, for comparison with the code's
`format_size`: scale by 1024 through B, KB, MB, GB, TB, return at the
first unit where the scaled value is below 1024, else fall through to
PB, rendering with two decimals and a space-separated unit label. -/
def format_size_spec (q : ℚ) : String :=
  if q < 1024 then formatFixed2 q ++ " B"
  else if q / 1024 < 1024 then formatFixed2 (q / 1024) ++ " KB"
  else if q / 1024 / 1024 < 1024 then formatFixed2 (q / 1024 / 1024) ++ " MB"
  else if q / 1024 / 1024 / 1024 < 1024 then
    formatFixed2 (q / 1024 / 1024 / 1024) ++ " GB"
  else if q / 1024 / 1024 / 1024 / 1024 < 1024 then
    formatFixed2 (q / 1024 / 1024 / 1024 / 1024) ++ " TB"
  else formatFixed2 (q / 1024 / 1024 / 1024 / 1024 / 1024) ++ " PB"

theorem joinParts_append (l1 l2 : List String) :
    Bot.joinParts (l1 ++ l2) = Bot.joinParts l1 ++ Bot.joinParts l2 := by
  induction l1 with
  | nil => simp [Bot.joinParts]
  | cons s rest ih => simp [Bot.joinParts, ih, String.append_assoc]

theorem length_joinParts (l : List String) :
    (Bot.joinParts l).length = (l.map String.length).sum := by
  induction l with
  | nil => rfl
  | cons s rest ih => simp [Bot.joinParts, String.length_append, ih]

theorem paginateLoop_join (bs : List String) :
    ∀ (cur : String) (ps : List String),
      Bot.joinParts (Bot.paginateLoop bs cur ps) =
        Bot.joinParts ps ++ cur ++ Bot.joinParts bs := by
  induction bs with
  | nil =>
      intro cur ps
      by_cases h : cur = "" <;>
        simp [Bot.paginateLoop, h, joinParts_append, Bot.joinParts, String.append_empty]
  | cons b rest ih =>
      intro cur ps
      by_cases h : 4000 < cur.length + b.length <;>
        simp [Bot.paginateLoop, h, ih, joinParts_append, Bot.joinParts,
          String.append_assoc, String.append_empty]

theorem paginateLoop_bound (bs : List String) :
    ∀ (cur : String) (ps : List String), cur.length ≤ 4000 →
      (∀ b ∈ bs, b.length ≤ 4000) → (∀ p ∈ ps, p.length ≤ 4000) →
      ∀ p ∈ Bot.paginateLoop bs cur ps, p.length ≤ 4000 := by
  induction bs with
  | nil =>
      intro cur ps hc _ hp p hpmem
      by_cases h : cur = "" <;> simp [Bot.paginateLoop, h] at hpmem
      · exact hp p hpmem
      · rcases hpmem with hpmem | rfl
        · exact hp p hpmem
        · exact hc
  | cons b rest ih =>
      intro cur ps hc hb hp p hpmem
      by_cases h : 4000 < cur.length + b.length
      · rw [Bot.paginateLoop, if_pos h] at hpmem
        refine ih b (ps ++ [cur]) (hb b (by simp)) (fun x hx => hb x (by simp [hx])) ?_ p hpmem
        intro x hx
        rcases List.mem_append.mp hx with hx | hx
        · exact hp x hx
        · simp at hx; subst hx; exact hc
      · rw [Bot.paginateLoop, if_neg h] at hpmem
        refine ih (cur ++ b) ps ?_ (fun x hx => hb x (by simp [hx])) hp p hpmem
        rw [String.length_append]
        omega

theorem paginate_join (header : String) (blocks : List String) :
    Bot.joinParts (Bot.paginate header blocks) = header ++ Bot.joinParts blocks := by
  rw [Bot.paginate, paginateLoop_join]
  simp [Bot.joinParts, String.empty_append]

/-- C8: for every byte count, `format_size` divides by 1024 through the
units B, KB, MB, GB, TB, returning at the first unit where the scaled
value is below 1024 and otherwise falling through to PB, rendered with
two decimal places, a space and the unit label (it agrees with the
spec-worded `format_size_spec` on every input); in particular
`format_size 0 = "0.00 B"`, `format_size 1536 = "1.50 KB"` and
`format_size (1024 ^ 4) = "1.00 TB"`. -/
theorem rat_floor_intCast (n : ℤ) : Rat.floor (n : ℚ) = n := by
  rw [Rat.floor_def']
  simp

theorem roundHalfEven_intCast (n : ℤ) : roundHalfEven (n : ℚ) = n := by
  simp only [roundHalfEven, rat_floor_intCast]
  norm_num

theorem formatFixed2_eval (q : ℚ) (n : ℤ) (h : q * 100 = (n : ℚ)) :
    formatFixed2 q =
      toString (n / 100) ++ "." ++ (if n % 100 < 10 then "0" else "")
        ++ toString (n % 100) := by
  simp only [formatFixed2, h, roundHalfEven_intCast]

theorem formatFixed1_eval (q : ℚ) (n : ℤ) (h : q * 10 = (n : ℚ)) :
    formatFixed1 q = toString (n / 10) ++ "." ++ toString (n % 10) := by
  simp only [formatFixed1, h, roundHalfEven_intCast]

theorem format_size_zero : format_size 0 = "0.00 B" := by
  simp only [format_size, sizeUnits, format_size_aux]
  rw [if_pos (by norm_num : (0 : ℚ) < 1024), formatFixed2_eval 0 0 (by norm_num)]
  decide

theorem format_speed_zero : format_speed 0 = "0.00 B/s" := by
  rw [format_speed, format_size_zero]
  decide

/-- C8: for every byte count, `format_size` divides by 1024 through the
units B, KB, MB, GB, TB, returning at the first unit where the scaled
value is below 1024 and otherwise falling through to PB, rendered with
two decimal places, a space and the unit label (it agrees with the
spec-worded `format_size_spec` on every input); in particular
`format_size 0 = "0.00 B"`, `format_size 1536 = "1.50 KB"` and
`format_size (1024 ^ 4) = "1.00 TB"`. -/
theorem C8_format_size :
    (∀ q : ℚ, format_size q = format_size_spec q) ∧
    format_size 0 = "0.00 B" ∧ format_size 1536 = "1.50 KB" ∧
    format_size ((1024 : ℚ) ^ 4) = "1.00 TB" := by
  refine ⟨fun q => ?_, format_size_zero, ?_, ?_⟩
  · simp only [format_size, format_size_aux, sizeUnits, format_size_spec]
    split_ifs <;> first
      | rfl
      | (rw [String.append_assoc]; rfl)
  · simp only [format_size, sizeUnits, format_size_aux]
    rw [if_neg (by norm_num : ¬ (1536 : ℚ) < 1024),
      if_pos (by norm_num : (1536 : ℚ) / 1024 < 1024),
      formatFixed2_eval ((1536 : ℚ) / 1024) 150 (by norm_num)]
    decide
  · simp only [format_size, sizeUnits, format_size_aux]
    rw [if_neg (by norm_num : ¬ (1024 : ℚ) ^ 4 < 1024),
      if_neg (by norm_num : ¬ (1024 : ℚ) ^ 4 / 1024 < 1024),
      if_neg (by norm_num : ¬ (1024 : ℚ) ^ 4 / 1024 / 1024 < 1024),
      if_neg (by norm_num : ¬ (1024 : ℚ) ^ 4 / 1024 / 1024 / 1024 < 1024),
      if_pos (by norm_num : (1024 : ℚ) ^ 4 / 1024 / 1024 / 1024 / 1024 < 1024),
      formatFixed2_eval ((1024 : ℚ) ^ 4 / 1024 / 1024 / 1024 / 1024) 100 (by norm_num)]
    decide

/-- C5: `get_active_torrents` returns exactly the items of the
`get_all_torrents` snapshot whose status lies in the seven-element
active-status set, as a subsequence (order preserved), after the same
single `get_torrents` RPC. -/
theorem C5_list_active :
    ∀ ts : List Torrent,
      (TransmissionClient.get_all_torrents (Except.ok ts)).1 = Except.ok ts ∧
      TransmissionClient.get_active_torrents (Except.ok ts) =
        (Except.ok
          (ts.filter (fun t => decide (t.status ∈ TransmissionClient.active_statuses))),
         [RpcCall.getTorrents]) ∧
      (ts.filter
        (fun t => decide (t.status ∈ TransmissionClient.active_statuses))).Sublist ts := by
  intro ts
  refine ⟨rfl, ?_, List.filter_sublist ts⟩
  have h : (fun t : Torrent => TransmissionClient.active_statuses.contains t.status) =
      (fun t : Torrent => decide (t.status ∈ TransmissionClient.active_statuses)) := by
    funext t
    simp
  simp only [TransmissionClient.get_active_torrents, h]

/-- C3: `pause_all` selects exactly the items with status ≠ stopped,
returns their number, and its call trace past the fetch is exactly one
bulk-stop carrying their identifiers when any were selected, and empty
otherwise; and the `/pause` handler on the five-item scenario with three
non-stopped items replies with count 3 after exactly one bulk-stop call
with the three identifiers. -/
theorem C3_pause_all :
    (∀ ts : List Torrent,
      (TransmissionClient.pause_all (Except.ok ts)).1 =
        Except.ok ((ts.filter (fun t => t.status != "stopped")).length) ∧
      (TransmissionClient.pause_all (Except.ok ts)).2 =
        [RpcCall.getTorrents] ++
          (if ts.filter (fun t => t.status != "stopped") = [] then []
           else
             [RpcCall.stopTorrent
               ((ts.filter (fun t => t.status != "stopped")).map Torrent.id)]) ∧
      ((∀ t ∈ ts, t.status = "stopped") →
        (TransmissionClient.pause_all (Except.ok ts)).1 = Except.ok 0 ∧
        (TransmissionClient.pause_all (Except.ok ts)).2 = [RpcCall.getTorrents])) ∧
    Bot.pause_all Bot.ALLOWED_USER_ID (Except.ok scenarioFive) =
      [Effect.rpc RpcCall.getTorrents,
       Effect.rpc (RpcCall.stopTorrent [1, 2, 4]),
       Effect.reply "⏸ Остановлено загрузок: 3"] := by
  constructor
  · intro ts
    refine ⟨by simp [TransmissionClient.pause_all], ?_, ?_⟩
    · simp only [TransmissionClient.pause_all]
      by_cases h : ts.filter (fun t => t.status != "stopped") = [] <;>
        simp [h]
    · intro hall
      have h : ts.filter (fun t => t.status != "stopped") = [] := by
        rw [List.filter_eq_nil_iff]
        intro t ht
        simp [hall t ht]
      constructor <;> simp [TransmissionClient.pause_all, h]
  · decide

/-- C3 witness: on a one-item snapshot whose only item is stopped,
`pause_all` returns 0 and issues no stop call. -/
theorem C3_pause_all_witness :
    (TransmissionClient.pause_all (Except.ok [mkTorrent 1 "x" "stopped" 0])).1 =
      Except.ok 0 ∧
    (TransmissionClient.pause_all (Except.ok [mkTorrent 1 "x" "stopped" 0])).2 =
      [RpcCall.getTorrents] :=
  (C3_pause_all.1 [mkTorrent 1 "x" "stopped" 0]).2.2 (by decide)

/-- C4: `resume_all` selects exactly the items with status = stopped and
completion below 1, returns their number, its call trace past the fetch
is exactly one bulk-start carrying their identifiers when any were
selected and empty otherwise; a fully-completed item is never selected,
and when no item qualifies the count is 0 with no start call. -/
theorem C4_resume_all :
    ∀ ts : List Torrent,
      (TransmissionClient.resume_all (Except.ok ts)).1 =
        Except.ok
          ((ts.filter
            (fun t => t.status == "stopped" && decide (t.percent_done < 1))).length) ∧
      (TransmissionClient.resume_all (Except.ok ts)).2 =
        [RpcCall.getTorrents] ++
          (if ts.filter (fun t => t.status == "stopped" && decide (t.percent_done < 1)) = []
           then []
           else
             [RpcCall.startTorrent
               ((ts.filter
                 (fun t => t.status == "stopped" && decide (t.percent_done < 1))).map
                   Torrent.id)]) ∧
      (∀ t ∈ ts, t.percent_done = 1 →
        t ∉ ts.filter (fun t => t.status == "stopped" && decide (t.percent_done < 1))) ∧
      ((∀ t ∈ ts, ¬(t.status = "stopped" ∧ t.percent_done < 1)) →
        (TransmissionClient.resume_all (Except.ok ts)).1 = Except.ok 0 ∧
        (TransmissionClient.resume_all (Except.ok ts)).2 = [RpcCall.getTorrents]) := by
  intro ts
  refine ⟨by simp [TransmissionClient.resume_all], ?_, ?_, ?_⟩
  · simp only [TransmissionClient.resume_all]
    by_cases h :
        ts.filter (fun t => t.status == "stopped" && decide (t.percent_done < 1)) = [] <;>
      simp [h]
  · intro t _ hpd hmem
    rw [List.mem_filter] at hmem
    have := hmem.2
    simp [hpd] at this
  · intro hall
    have h : ts.filter (fun t => t.status == "stopped" && decide (t.percent_done < 1)) = [] := by
      rw [List.filter_eq_nil_iff]
      intro t ht
      have := hall t ht
      simp only [Bool.and_eq_true, beq_iff_eq, decide_eq_true_eq]
      tauto
    constructor <;> simp [TransmissionClient.resume_all, h]

/-- C4 witness: a snapshot holding one stopped item at completion 1 and
one downloading item yields count 0 and no start call, and the completed
stopped item is not selected. -/
theorem C4_resume_all_witness :
    ((TransmissionClient.resume_all
        (Except.ok [mkTorrent 1 "x" "stopped" 1, mkTorrent 2 "y" "downloading" 0])).1 =
      Except.ok 0 ∧
    (TransmissionClient.resume_all
        (Except.ok [mkTorrent 1 "x" "stopped" 1, mkTorrent 2 "y" "downloading" 0])).2 =
      [RpcCall.getTorrents]) ∧
    mkTorrent 1 "x" "stopped" 1 ∉
      ([mkTorrent 1 "x" "stopped" 1, mkTorrent 2 "y" "downloading" 0].filter
        (fun t => t.status == "stopped" && decide (t.percent_done < 1))) :=
  ⟨(C4_resume_all [mkTorrent 1 "x" "stopped" 1, mkTorrent 2 "y" "downloading" 0]).2.2.2
      (by decide),
   (C4_resume_all [mkTorrent 1 "x" "stopped" 1, mkTorrent 2 "y" "downloading" 0]).2.2.1
      (mkTorrent 1 "x" "stopped" 1) (by decide) (by decide)⟩

/-- C10: on a snapshot with pairwise-distinct identifiers, any id list
carried by a bulk-stop call of `pause_all` is disjoint from any id list
carried by a bulk-start call of `resume_all` on the same snapshot:
`pause_all` selects status ≠ stopped, `resume_all` selects status =
stopped, so no item is targeted by both. -/
theorem C10_pause_resume_disjoint :
    ∀ ts : List Torrent, (ts.map Torrent.id).Nodup →
      ∀ ids₁ ids₂ : List ℕ,
        RpcCall.stopTorrent ids₁ ∈ (TransmissionClient.pause_all (Except.ok ts)).2 →
        RpcCall.startTorrent ids₂ ∈ (TransmissionClient.resume_all (Except.ok ts)).2 →
        List.Disjoint ids₁ ids₂ := by
  intro ts hnd ids₁ ids₂ h1 h2
  have e1 : ids₁ = (ts.filter (fun t => t.status != "stopped")).map Torrent.id := by
    simp only [TransmissionClient.pause_all, List.mem_append, List.mem_singleton] at h1
    rcases h1 with h1 | h1
    · simp at h1
    · by_cases hc :
          ((ts.filter (fun t => t.status != "stopped")).map Torrent.id).isEmpty <;>
        simp [hc] at h1
      exact h1
  have e2 : ids₂ =
      (ts.filter (fun t => t.status == "stopped" && decide (t.percent_done < 1))).map
        Torrent.id := by
    simp only [TransmissionClient.resume_all, List.mem_append, List.mem_singleton] at h2
    rcases h2 with h2 | h2
    · simp at h2
    · by_cases hc :
          ((ts.filter
            (fun t => t.status == "stopped" && decide (t.percent_done < 1))).map
              Torrent.id).isEmpty <;>
        simp [hc] at h2
      exact h2
  subst e1 e2
  intro x hx1 hx2
  obtain ⟨t1, ht1, hid1⟩ := List.mem_map.mp hx1
  obtain ⟨t2, ht2, hid2⟩ := List.mem_map.mp hx2
  rw [List.mem_filter] at ht1 ht2
  have heq : t1 = t2 :=
    List.inj_on_of_nodup_map hnd ht1.1 ht2.1 (hid1.trans hid2.symm)
  have hs1 := ht1.2
  have hs2 := ht2.2
  rw [heq] at hs1
  simp only [bne_iff_ne, ne_eq] at hs1
  simp only [Bool.and_eq_true, beq_iff_eq] at hs2
  exact hs1 hs2.1

/-- C10 witness: a two-item snapshot with distinct ids, one downloading
and one stopped incomplete item, has disjoint stop and start id lists. -/
theorem C10_witness :
    List.Disjoint [1] [2] :=
  C10_pause_resume_disjoint
    [mkTorrent 1 "a" "downloading" 0, mkTorrent 2 "b" "stopped" 0]
    (by decide) [1] [2] (by decide) (by decide)

/-- C2: for every sender identity other than the operator identity,
every guarded handler sends exactly the refusal reply — no RPC call, no
other reply — regardless of the daemon state or attachment outcome. -/
theorem C2_access_guard :
    ∀ user_id : ℕ, user_id ≠ Bot.ALLOWED_USER_ID →
      ∀ (d : DaemonResult) (dl : Except String Unit) (ar : Except String Torrent),
        Bot.start user_id = [Effect.reply Bot.accessDeniedText] ∧
        Bot.help_command user_id = [Effect.reply Bot.accessDeniedText] ∧
        Bot.show_all_torrents user_id d = [Effect.reply Bot.accessDeniedText] ∧
        Bot.show_active_torrents user_id d = [Effect.reply Bot.accessDeniedText] ∧
        Bot.pause_all user_id d = [Effect.reply Bot.accessDeniedText] ∧
        Bot.resume_all user_id d = [Effect.reply Bot.accessDeniedText] ∧
        Bot.handle_torrent_file user_id dl ar = [Effect.reply Bot.accessDeniedText] := by
  intro user_id h d dl ar
  refine ⟨?_, ?_, ?_, ?_, ?_, ?_, ?_⟩ <;>
    simp [Bot.start, Bot.help_command, Bot.show_all_torrents, Bot.show_active_torrents,
      Bot.pause_all, Bot.resume_all, Bot.handle_torrent_file, Bot.check_user_access, h]

/-- C2 witness: sender 0 is refused by every handler. -/
theorem C2_access_guard_witness :
    Bot.start 0 = [Effect.reply Bot.accessDeniedText] ∧
    Bot.help_command 0 = [Effect.reply Bot.accessDeniedText] ∧
    Bot.show_all_torrents 0 (Except.ok []) = [Effect.reply Bot.accessDeniedText] ∧
    Bot.show_active_torrents 0 (Except.ok []) = [Effect.reply Bot.accessDeniedText] ∧
    Bot.pause_all 0 (Except.ok []) = [Effect.reply Bot.accessDeniedText] ∧
    Bot.resume_all 0 (Except.ok []) = [Effect.reply Bot.accessDeniedText] ∧
    Bot.handle_torrent_file 0 (Except.ok ()) (Except.error "bad") =
      [Effect.reply Bot.accessDeniedText] :=
  C2_access_guard 0 (by decide) (Except.ok []) (Except.ok ()) (Except.error "bad")

/-- C7 counterexample: the operator identity does not vary with the
configuration — there is no pair of configurations on which it differs,
because `bot.py` hardcodes `ALLOWED_USER_ID = 800891816` and reads no
configuration key for it. -/
theorem C7_counterexample :
    ¬ ∃ c₁ c₂ : Bot.Config, Bot.operator_identity c₁ ≠ Bot.operator_identity c₂ := by
  rintro ⟨c₁, c₂, h⟩
  exact h rfl

/-- C7 (amended): the operator identity the guard compares against is
the single numeric identifier 800891816, fixed at process start as a
hardcoded module constant, identical for every configuration; the guard
passes exactly the sender equal to it. -/
theorem C7_operator_identity :
    (∀ c : Bot.Config, Bot.operator_identity c = 800891816) ∧
    (∀ c : Bot.Config, Bot.operator_identity c = Bot.ALLOWED_USER_ID) ∧
    (∀ user_id : ℕ,
      (Bot.check_user_access user_id).2 = true ↔ user_id = Bot.ALLOWED_USER_ID) := by
  refine ⟨fun _ => rfl, fun _ => rfl, fun user_id => ?_⟩
  by_cases h : user_id = Bot.ALLOWED_USER_ID <;> simp [Bot.check_user_access, h]

/-- C9: `format_torrent_info` produces a (non-empty) string for every
item — it has no failure mode — and when the status is not one of the
seven recognized values the status label degrades to the generic
fallback embedding the raw status token. -/
theorem C9_formatter_total :
    ∀ t : Torrent,
      0 < (format_torrent_info t).length ∧
      (t.status ∉ knownStatuses →
        format_torrent_info t =
          "📦 **" ++ t.name ++ "**\n" ++ "Статус: " ++ ("❓ " ++ t.status) ++ "\n"
            ++ torrent_info_tail t) := by
  intro t
  constructor
  · have h : format_torrent_info t =
        "📦 **" ++ (t.name ++ ("**\nСтатус: " ++ (status_text t.status ++ ("\n"
          ++ torrent_info_tail t)))) := by
      simp [format_torrent_info, String.append_assoc]
    rw [h, String.length_append]
    have h4 : ("📦 **" : String).length = 4 := by decide
    omega
  · intro hs
    simp only [knownStatuses, List.mem_cons, List.not_mem_nil, or_false, not_or] at hs
    obtain ⟨h1, h2, h3, h4, h5, h6, h7⟩ := hs
    simp only [format_torrent_info, status_text, h1, h2, h3, h4, h5, h6, h7, if_false,
      ite_false]

/-- C9 witness: an item with the unrecognized status token other yields
a non-empty block whose status label is the fallback embedding other. -/
theorem C9_formatter_total_witness :
    0 < (format_torrent_info (mkTorrent 1 "n" "other" 0)).length ∧
    format_torrent_info (mkTorrent 1 "n" "other" 0) =
      "📦 **" ++ (mkTorrent 1 "n" "other" 0).name ++ "**\n" ++ "Статус: "
        ++ ("❓ " ++ (mkTorrent 1 "n" "other" 0).status) ++ "\n"
        ++ torrent_info_tail (mkTorrent 1 "n" "other" 0) :=
  ⟨(C9_formatter_total (mkTorrent 1 "n" "other" 0)).1,
   (C9_formatter_total (mkTorrent 1 "n" "other" 0)).2 (by decide)⟩

theorem torrentAddedText_ne_errText (name e : String) :
    Bot.torrentAddedText name ≠ Bot.torrentErrText e := by
  intro h
  have ha : (Bot.torrentAddedText name).data.head? = some '✅' := rfl
  have hb : (Bot.torrentErrText e).data.head? = some '❌' := rfl
  rw [h, hb] at ha
  simp at ha

/-- C6: per-request failures are caught at the handler boundary: a
failing fetch makes each list/pause/resume handler reply with the
generic error text carrying the failure message; a failing download or
a daemon-rejected (malformed) torrent makes the file handler reply with
its generic error text; and the file handler never sends the success
confirmation on a failure. -/
theorem C6_error_boundary :
    (∀ e : String,
      Bot.show_all_torrents Bot.ALLOWED_USER_ID (Except.error e) =
        [Effect.rpc RpcCall.getTorrents, Effect.reply ("❌ Ошибка: " ++ e)] ∧
      Bot.show_active_torrents Bot.ALLOWED_USER_ID (Except.error e) =
        [Effect.rpc RpcCall.getTorrents, Effect.reply ("❌ Ошибка: " ++ e)] ∧
      Bot.pause_all Bot.ALLOWED_USER_ID (Except.error e) =
        [Effect.rpc RpcCall.getTorrents, Effect.reply ("❌ Ошибка: " ++ e)] ∧
      Bot.resume_all Bot.ALLOWED_USER_ID (Except.error e) =
        [Effect.rpc RpcCall.getTorrents, Effect.reply ("❌ Ошибка: " ++ e)]) ∧
    (∀ (e : String) (ar : Except String Torrent),
      Bot.handle_torrent_file Bot.ALLOWED_USER_ID (Except.error e) ar =
        [Effect.reply (Bot.torrentErrText e)]) ∧
    (∀ e : String,
      Bot.handle_torrent_file Bot.ALLOWED_USER_ID (Except.ok ()) (Except.error e) =
        [Effect.rpc RpcCall.addTorrent, Effect.reply (Bot.torrentErrText e)]) ∧
    (∀ e name : String,
      Effect.reply (Bot.torrentAddedText name) ∉
        Bot.handle_torrent_file Bot.ALLOWED_USER_ID (Except.ok ()) (Except.error e)) := by
  refine ⟨?_, ?_, ?_, ?_⟩
  · intro e
    refine ⟨?_, ?_, ?_, ?_⟩ <;>
      simp [Bot.show_all_torrents, Bot.show_active_torrents, Bot.pause_all, Bot.resume_all,
        Bot.check_user_access, TransmissionClient.get_all_torrents,
        TransmissionClient.get_active_torrents, TransmissionClient.pause_all,
        TransmissionClient.resume_all]
  · intro e ar
    simp [Bot.handle_torrent_file, Bot.check_user_access]
  · intro e
    simp [Bot.handle_torrent_file, Bot.check_user_access]
  · intro e name h
    simp only [Bot.handle_torrent_file, Bot.check_user_access] at h
    simp at h
    exact torrentAddedText_ne_errText name e h


theorem charsA_length (k : ℕ) : (charsA k).length = k := by
  simp [charsA, String.length]

theorem zeroTail_eq (i : ℕ) (nm st : String) :
    torrent_info_tail (mkTorrent i nm st 0) = zeroTail := by
  have h1 : formatFixed1 ((0 : ℚ) * 100) = "0.0" := by
    rw [formatFixed1_eval ((0 : ℚ) * 100) 0 (by norm_num)]
    decide
  simp only [torrent_info_tail, mkTorrent, h1, format_size_zero, format_speed_zero]
  decide

theorem fti_mkZero (i : ℕ) (nm st : String) :
    format_torrent_info (mkTorrent i nm st 0) =
      "📦 **" ++ nm ++ "**\n" ++ "Статус: " ++ status_text st ++ "\n" ++ zeroTail := by
  rw [format_torrent_info, zeroTail_eq]
  rfl

set_option maxRecDepth 8000 in
theorem fti_mkZero_len (i k : ℕ) :
    (format_torrent_info (mkTorrent i (charsA k) "stopped" 0)).length = 157 + k := by
  rw [fti_mkZero]
  rw [show status_text "stopped" = "⏸ Остановлен" from by decide]
  simp only [String.length_append, charsA_length]
  have e1 : ("📦 **" : String).length = 4 := by decide
  have e2 : ("**\n" : String).length = 3 := by decide
  have e3 : ("Статус: " : String).length = 8 := by decide
  have e4 : ("⏸ Остановлен" : String).length = 12 := by decide
  have e5 : ("\n" : String).length = 1 := by decide
  have e6 : zeroTail.length = 129 := by decide
  omega

theorem torrentBlocks_single (t : Torrent) :
    Bot.torrentBlocks [t] = [toString 1 ++ ". " ++ format_torrent_info t ++ "\n"] := by
  simp [Bot.torrentBlocks, List.enumFrom]

theorem allFullMessage_charsA_len (k : ℕ) :
    (Bot.allFullMessage [mkTorrent 1 (charsA k) "stopped" 0]).length = 186 + k := by
  rw [Bot.allFullMessage, torrentBlocks_single]
  simp only [Bot.joinParts, String.append_empty, Bot.allCountHeader,
    String.length_append, fti_mkZero_len, List.length_singleton]
  have e1 : ("📋 **Все загрузки (" : String).length = 18 := by decide
  have e2 : ("):**\n\n" : String).length = 6 := by decide
  have e3 : (toString (1 : ℕ)).length = 1 := by decide
  have e4 : (". " : String).length = 2 := by decide
  have e5 : ("\n" : String).length = 1 := by decide
  omega


theorem wtBlock_length : wtBlock.length = 4161 := by
  rw [wtBlock]
  simp only [String.length_append]
  rw [show wtTorrent = mkTorrent 1 (charsA 4000) "stopped" 0 from rfl, fti_mkZero_len]
  have h1 : (toString (1 : ℕ)).length = 1 := by decide
  have h2 : (". " : String).length = 2 := by decide
  have h3 : ("\n" : String).length = 1 := by decide
  omega

theorem paginate_props (header : String) (blocks : List String)
    (hh : header.length ≤ 4000) (hb : ∀ b ∈ blocks, b.length ≤ 4000) :
    (4000 < (header ++ Bot.joinParts blocks).length →
      2 ≤ (Bot.paginate header blocks).length) ∧
    (∀ p ∈ Bot.paginate header blocks, p.length ≤ 4000) := by
  have hjoin := paginate_join header blocks
  have hbound : ∀ p ∈ Bot.paginate header blocks, p.length ≤ 4000 := by
    rw [Bot.paginate]
    exact paginateLoop_bound blocks header [] hh hb (by simp)
  refine ⟨?_, hbound⟩
  intro htot
  rcases hp : Bot.paginate header blocks with _ | ⟨p, _ | ⟨q, r⟩⟩
  · exfalso
    rw [hp] at hjoin
    have hlen : (header ++ Bot.joinParts blocks).length = 0 := by
      rw [← hjoin]
      rfl
    omega
  · exfalso
    rw [hp] at hjoin
    have hlen : (header ++ Bot.joinParts blocks).length = p.length := by
      rw [← hjoin]
      simp [Bot.joinParts, String.append_empty]
    have hple : p.length ≤ 4000 := by
      refine hbound p ?_
      rw [hp]
      simp
    omega
  · simp

/-- C1 (amended): the `/all` and `/active` handlers enter pagination
exactly when the full single message (with its count-bearing header)
exceeds 4096 characters, not 4000; once pagination runs, concatenating
the sent messages in order always reproduces the pagination header
followed by the full formatted item list in original order, and —
provided every single item block is at most 4000 characters — the reply
is at least 2 messages whenever the pagination header plus the blocks
exceed 4000 characters, each message at most 4000 characters (a single
block longer than 4000 characters is instead flushed as its own
over-long message, see the counterexample). -/
theorem C1_pagination :
    (∀ blocks : List String,
      Bot.joinParts (Bot.paginate Bot.allPagHeader blocks) =
        Bot.allPagHeader ++ Bot.joinParts blocks) ∧
    (∀ blocks : List String,
      Bot.joinParts (Bot.paginate Bot.activePagHeader blocks) =
        Bot.activePagHeader ++ Bot.joinParts blocks) ∧
    (∀ blocks : List String, (∀ b ∈ blocks, b.length ≤ 4000) →
      (4000 < (Bot.allPagHeader ++ Bot.joinParts blocks).length →
        2 ≤ (Bot.paginate Bot.allPagHeader blocks).length) ∧
      (∀ p ∈ Bot.paginate Bot.allPagHeader blocks, p.length ≤ 4000)) ∧
    (∀ blocks : List String, (∀ b ∈ blocks, b.length ≤ 4000) →
      (4000 < (Bot.activePagHeader ++ Bot.joinParts blocks).length →
        2 ≤ (Bot.paginate Bot.activePagHeader blocks).length) ∧
      (∀ p ∈ Bot.paginate Bot.activePagHeader blocks, p.length ≤ 4000)) ∧
    (∀ ts : List Torrent, 4096 < (Bot.allFullMessage ts).length →
      Bot.show_all_body ts = Bot.paginate Bot.allPagHeader (Bot.torrentBlocks ts)) ∧
    (∀ ts : List Torrent, 4096 < (Bot.activeFullMessage ts).length →
      Bot.show_active_body ts = Bot.paginate Bot.activePagHeader (Bot.torrentBlocks ts)) := by
  refine ⟨fun blocks => paginate_join _ blocks, fun blocks => paginate_join _ blocks,
    fun blocks hb => paginate_props _ blocks (by decide) hb,
    fun blocks hb => paginate_props _ blocks (by decide) hb, ?_, ?_⟩
  · intro ts h
    simp only [Bot.show_all_body]
    rw [if_pos h]
  · intro ts h
    simp only [Bot.show_active_body]
    rw [if_pos h]

/-- C1 witness: with the real `/all` pagination header and three
2000-character blocks, the reply is at least two messages, each at most
4000 characters, whose concatenation restores header and blocks; and a
torrent list whose full message is 4186 characters makes the `/all`
handler take the pagination path. -/
theorem C1_pagination_witness :
    (2 ≤ (Bot.paginate Bot.allPagHeader wBlocks).length ∧
      (∀ p ∈ Bot.paginate Bot.allPagHeader wBlocks, p.length ≤ 4000)) ∧
    Bot.joinParts (Bot.paginate Bot.allPagHeader wBlocks) =
      Bot.allPagHeader ++ Bot.joinParts wBlocks ∧
    Bot.show_all_body [wtTorrent] =
      Bot.paginate Bot.allPagHeader (Bot.torrentBlocks [wtTorrent]) := by
  have hb : ∀ b ∈ wBlocks, b.length ≤ 4000 := by
    intro b hb
    have hbe : b = charsA 2000 := by
      simpa [wBlocks] using hb
    rw [hbe, charsA_length]
    norm_num
  have htot : 4000 < (Bot.allPagHeader ++ Bot.joinParts wBlocks).length := by
    have hsum : (wBlocks.map String.length).sum = 6000 := by
      simp [wBlocks, charsA_length]
    have hH : Bot.allPagHeader.length = 21 := by decide
    rw [String.length_append, length_joinParts, hsum, hH]
    norm_num
  refine ⟨⟨(C1_pagination.2.2.1 wBlocks hb).1 htot, (C1_pagination.2.2.1 wBlocks hb).2⟩,
    C1_pagination.1 wBlocks, ?_⟩
  apply C1_pagination.2.2.2.2.1
  rw [show wtTorrent = mkTorrent 1 (charsA 4000) "stopped" 0 from rfl,
    allFullMessage_charsA_len]
  norm_num

/-- C1 counterexample, two failures at concrete inputs.  First, the
claimed 4000-character split trigger: for `cexTorrent` the item blocks
together with the header exceed 4000 characters (under either header),
yet the `/all` reply is one single message, not at least two — the code
only paginates past 4096.  Second, the claimed per-message 4000-character
bound: for `wtTorrent` pagination does run (full message 4186 > 4096),
and the sent messages are the bare pagination header followed by the
single 4161-character item block as its own message — a message over
4000 characters with no header overhead involved. -/
theorem C1_counterexample :
    (4000 < (Bot.allPagHeader ++ Bot.joinParts (Bot.torrentBlocks [cexTorrent])).length ∧
      4000 < (Bot.allFullMessage [cexTorrent]).length ∧
      Bot.show_all_body [cexTorrent] = [Bot.allFullMessage [cexTorrent]]) ∧
    (4096 < (Bot.allFullMessage [wtTorrent]).length ∧
      Bot.show_all_body [wtTorrent] = [Bot.allPagHeader, wtBlock] ∧
      wtBlock.length = 4161) := by
  constructor
  · have hfull : (Bot.allFullMessage [cexTorrent]).length = 4056 := by
      rw [show cexTorrent = mkTorrent 1 (charsA 3870) "stopped" 0 from rfl,
        allFullMessage_charsA_len]
    refine ⟨?_, ?_, ?_⟩
    · rw [torrentBlocks_single]
      simp only [Bot.joinParts, String.append_empty, String.length_append]
      rw [show cexTorrent = mkTorrent 1 (charsA 3870) "stopped" 0 from rfl, fti_mkZero_len]
      have h1 : Bot.allPagHeader.length = 21 := by decide
      have h2 : (toString (1 : ℕ)).length = 1 := by decide
      have h3 : (". " : String).length = 2 := by decide
      have h4 : ("\n" : String).length = 1 := by decide
      omega
    · rw [hfull]
      norm_num
    · simp only [Bot.show_all_body]
      rw [hfull, if_neg (by norm_num)]
  · have hwb := wtBlock_length
    have hfull : (Bot.allFullMessage [wtTorrent]).length = 4186 := by
      rw [show wtTorrent = mkTorrent 1 (charsA 4000) "stopped" 0 from rfl,
        allFullMessage_charsA_len]
    refine ⟨by rw [hfull]; norm_num, ?_, hwb⟩
    simp only [Bot.show_all_body]
    rw [hfull, if_pos (by norm_num), torrentBlocks_single,
      show (toString (1 : ℕ) ++ ". " ++ format_torrent_info wtTorrent ++ "\n") = wtBlock
        from rfl]
    have hcond : 4000 < Bot.allPagHeader.length + wtBlock.length := by
      rw [hwb, show Bot.allPagHeader.length = 21 from by decide]
      norm_num
    have hne : ¬ wtBlock = "" := by
      intro h
      rw [h] at hwb
      exact absurd hwb (by decide)
    rw [Bot.paginate]
    simp only [Bot.paginateLoop, if_pos hcond, if_neg hne]
    simp
